import Mathlib

/-!
Verification of the episode-to-time normalization and comparative statistics
engine of the Dynamic_traffic_system analysis scripts.

The definitions below are shallow embeddings of the Python functions in
`src/Analysis/Compare_results_time_based.py`, `src/Analysis/analyze_stats.py`
and `src/Analysis/Compare_results.py`.  Numeric values are modelled as exact
rationals; numpy/pandas results that are NaN or infinite (special float
values) are modelled explicitly, never by a silent default.
-/

namespace TrafficAnalysis

/-- `episode_df['GreenLightTime'].cumsum()` starting from an accumulator:
running prefix sums of the durations. -/
def cumsumFrom (acc : ℚ) : List ℚ → List ℚ
  | [] => []
  | d :: ds => (acc + d) :: cumsumFrom (acc + d) ds

/-- The `CumulativeTime` column: `episode_df['GreenLightTime'].cumsum()`
(Compare_results_time_based.py line 33). -/
def cumsum (l : List ℚ) : List ℚ := cumsumFrom 0 l

/-- One iteration of the rate loop in `calculate_rates`
(Compare_results_time_based.py lines 49-55): the delta of the metric between
consecutive episodes divided by the episode's duration in minutes, clamped to
be non-negative; a non-positive duration-in-minutes yields `0`. -/
def rateStep (prev v d : ℚ) : ℚ :=
  if 0 < d / 60 then max 0 ((v - prev) / (d / 60)) else 0

/-- The list built by the loop `for i in range(1, len(episode_df))` in
`calculate_rates`: one `rateStep` per pair of consecutive episodes, using the
later episode's duration. -/
def deltaRates : List ℚ → List ℚ → List ℚ
  | v0 :: v1 :: vs, _ :: d1 :: ds => rateStep v0 v1 d1 :: deltaRates (v1 :: vs) (d1 :: ds)
  | _, _ => []

/-- The seed rate inserted at index 0 by `calculate_rates`
(Compare_results_time_based.py lines 58-60):
`value[0] / (duration[0] / 60)` when `duration[0] > 0`, else `0`.
Note: unlike the loop rates, this value is not clamped with `max(0, ...)`. -/
def firstRate (vs ds : List ℚ) : ℚ :=
  match vs, ds with
  | v :: _, d :: _ => if 0 < d then v / (d / 60) else 0
  | _, _ => 0

/-- The full `rates` list of `calculate_rates` for one metric column:
the loop rates with the seed rate inserted at the front when the input is
non-empty (`if len(episode_df) > 0: rates.insert(0, first_rate)`). -/
def calcRatesList (vs ds : List ℚ) : List ℚ :=
  if 0 < vs.length then firstRate vs ds :: deltaRates vs ds else deltaRates vs ds

/-- `np.interp` at a single query point, for a non-empty knot list
`[(x0, f0), (x1, f1), ...]` with (nominally) increasing abscissas.
Semantics follow numpy's `arr_interp`:
queries left of the first knot clamp to the first ordinate, queries right of
the last knot clamp to the last ordinate, and an interior query is evaluated
linearly on the interval whose left end is the rightmost knot with abscissa
not exceeding the query (so at a duplicated abscissa the last of the
duplicates wins).  The `[]` case is unreachable in guarded use: numpy raises
before evaluating any query when the sample array is empty. -/
def npInterp (x : ℚ) : List (ℚ × ℚ) → ℚ
  | [] => 0
  | [(_, f0)] => f0
  | (x0, f0) :: (x1, f1) :: rest =>
    if x < x0 then f0
    else if x < x1 then f0 + (f1 - f0) * (x - x0) / (x1 - x0)
    else npInterp x ((x1, f1) :: rest)

/-- Episode dataframe columns used by the analysis scripts.  `greenLightTime`
is always present (`convert_episodes_to_time` substitutes a constant column
when it is missing), the metric columns are optional: an absent column models
a CSV without that header. -/
structure EpisodeDF where
  greenLightTime : List ℚ
  totalVehicles : Option (List ℚ)
  vehiclesWaiting : Option (List ℚ)
  fuelConsumed : Option (List ℚ)
deriving DecidableEq

/-- The `interpolated_data` dictionary produced by `calculate_rates`: one
optional entry per metric column, absent exactly when the metric column was
absent from the input. -/
structure RatesDict where
  totalVehiclesRate : Option (List ℚ)
  vehiclesWaitingRate : Option (List ℚ)
  fuelConsumedRate : Option (List ℚ)
deriving DecidableEq

/-- Processing of one metric column inside `calculate_rates`
(Compare_results_time_based.py lines 45-62): a missing column is skipped with
no failure (`if column in episode_df.columns`); for a present column the rate
list is built and passed to `np.interp`, which raises
`ValueError: array of sample points is empty` when the sample-point array
(the cumulative-time column) is empty. -/
def columnRates (glt : List ℚ) (col : Option (List ℚ)) (tp : List ℚ) :
    Except String (Option (List ℚ)) :=
  match col with
  | none => .ok none
  | some vs =>
    let xp := cumsum glt
    if xp = [] then .error "array of sample points is empty"
    else .ok (some (tp.map (fun t => npInterp t (xp.zip (calcRatesList vs glt)))))

/-- `calculate_rates(episode_df, time_points)`
(Compare_results_time_based.py lines 40-64): iterates over the three metric
columns in order, building the interpolated rate series for each column that
is present; a raised `ValueError` aborts the whole call. -/
def calculate_rates (df : EpisodeDF) (tp : List ℚ) : Except String RatesDict := do
  let tv ← columnRates df.greenLightTime df.totalVehicles tp
  let vw ← columnRates df.greenLightTime df.vehiclesWaiting tp
  let fc ← columnRates df.greenLightTime df.fuelConsumed tp
  return ⟨tv, vw, fc⟩

/-- `np.mean` / pandas `.mean()`: the arithmetic mean, which is NaN
(modelled as `none`) on an empty input. -/
def npMean (l : List ℚ) : Option ℚ :=
  if l.isEmpty then none else some (l.sum / l.length)

/-- `np.mean(data.get('X_Rate', [0]))` as used throughout
`generate_time_based_summary` and `create_time_based_plots`: a metric whose
rate series is absent from the dictionary is silently replaced by the
one-element zero list `[0]` before averaging. -/
def summaryRateMean (o : Option (List ℚ)) : Option ℚ :=
  npMean (o.getD [0])

/-- A reported improvement-percentage cell.  `value q` is a finite computed
percentage, `placeholder` is the literal `"-"` (the not-computable marker left
in the summary table), and `special` is a numpy special float (`inf` or
`nan`) produced by an unguarded division by a zero baseline mean. -/
inductive PercentCell where
  | value (q : ℚ)
  | placeholder
  | special
deriving DecidableEq

/-- The `ML vs Static Throughput Improvement (%)` cell of
`generate_time_based_summary` (Compare_results_time_based.py lines 172-175):
computed as `(ml - static) / static * 100` only when `static_throughput > 0`,
otherwise the `"-"` placeholder is left in place. -/
def throughputEntry (ml static : ℚ) : PercentCell :=
  if 0 < static then .value ((ml - static) / static * 100) else .placeholder

/-- The `ML vs Static Queue Reduction (%)` cell
(Compare_results_time_based.py lines 177-180): `(static - ml) / static * 100`
guarded by `static_queue > 0`. -/
def queueEntry (ml static : ℚ) : PercentCell :=
  if 0 < static then .value ((static - ml) / static * 100) else .placeholder

/-- The `ML vs Static Fuel Savings (%)` cell
(Compare_results_time_based.py lines 182-185): `(static - ml) / static * 100`
guarded by `static_fuel > 0`. -/
def fuelEntry (ml static : ℚ) : PercentCell :=
  if 0 < static then .value ((static - ml) / static * 100) else .placeholder

/-- The improvement percentage of
`TrafficSignalComparison.statistical_comparison` (analyze_stats.py line 194):
`((static_mean - ml_mean) / static_mean) * 100` for every metric, with no
guard on the baseline mean; a zero baseline therefore yields a numpy special
float (inf or nan). -/
def statsImprovementCell (ml static : ℚ) : PercentCell :=
  if static = 0 then .special else .value ((static - ml) / static * 100)

/-- The `Performance Improvement (%)` of `analyze_comparison_results`
(Compare_results.py line 141): `((ml - static) / static) * 100` on the
TotalVehicles means, with no guard on the baseline mean. -/
def compareResultsImprovementCell (ml static : ℚ) : PercentCell :=
  if static = 0 then .special else .value ((ml - static) / static * 100)

/-- The metrics compared by `statistical_comparison`. -/
inductive Metric where
  | TotalVehicles
  | VehiclesWaiting
  | FuelConsumed
  | EpisodeDuration
deriving DecidableEq

/-- The per-metric direction used by `generate_performance_report`
(analyze_stats.py lines 243-247): only `TotalVehicles` is treated as
higher-is-better. -/
def higher_is_better (m : Metric) : Bool :=
  m = Metric.TotalVehicles

/-- `generate_performance_report`'s classification of which policy performed
better on a metric (analyze_stats.py lines 244-247): `true` means the ML
agent is classified as better. -/
def reportBetterIsML (m : Metric) (mlMean staticMean : ℚ) : Bool :=
  if m = Metric.TotalVehicles then staticMean < mlMean else mlMean < staticMean

/-- The direction-dependent improvement formula as the specification words
it (spec §4.4), written here only to be compared with the code's formulas:
`(treatment − baseline) / baseline × 100` for higher-is-better metrics and
`(baseline − treatment) / baseline × 100` for lower-is-better metrics. -/
def spec_directional_improvement (m : Metric) (treatment baseline : ℚ) : ℚ :=
  if higher_is_better m then (treatment - baseline) / baseline * 100
  else (baseline - treatment) / baseline * 100

/-- The higher-is-better improvement formula as the code computes it for
throughput (Compare_results_time_based.py line 173, Compare_results.py
line 141): `(treatment - baseline) / baseline * 100`. -/
def hib_improvement (treatment baseline : ℚ) : ℚ :=
  (treatment - baseline) / baseline * 100

/-- pandas `.std()` with its default `ddof=1`, represented via its square:
the sample variance with divisor `n - 1`.  For `n ≤ 1` pandas returns NaN,
modelled as `none`. -/
def pandasSampleVar (l : List ℚ) : Option ℚ :=
  if l.length ≤ 1 then none
  else some (((l.map (fun x => (x - l.sum / (l.length : ℚ)) ^ 2)).sum) / ((l.length : ℚ) - 1))

/-- Column access `df[name]` on an optional column: raises `KeyError` when
the column is absent. -/
def requireCol (o : Option (List ℚ)) (name : String) : Except String (List ℚ) :=
  match o with
  | some l => .ok l
  | none => .error ("missing column " ++ name)

/-- `analyze_comparison_results` (Compare_results.py): after loading, the
function first checks that `FuelConsumed` is present in both episode files
and raises a `KeyError` naming the offending file if not (lines 21-27); only
then does it build the comparison table of per-metric means for both
policies.  A raised error aborts the entire analysis: no metric produces any
comparison output. -/
def analyze_comparison_results (ml static : EpisodeDF) :
    Except String (List (Option ℚ × Option ℚ)) := do
  match ml.fuelConsumed with
  | none => throw "episode_results.csv missing FuelConsumed column"
  | some mlFuel =>
  match static.fuelConsumed with
  | none => throw "static_episode_results.csv missing FuelConsumed column"
  | some stFuel => do
    let mlTv ← requireCol ml.totalVehicles "TotalVehicles"
    let stTv ← requireCol static.totalVehicles "TotalVehicles"
    let mlVw ← requireCol ml.vehiclesWaiting "VehiclesWaiting"
    let stVw ← requireCol static.vehiclesWaiting "VehiclesWaiting"
    return [ (npMean mlTv, npMean stTv),
             (npMean mlVw, npMean stVw),
             (npMean mlFuel, npMean stFuel) ]

/-! ## Helper lemmas -/

lemma cumsumFrom_length (acc : ℚ) (l : List ℚ) :
    (cumsumFrom acc l).length = l.length := by
  induction l generalizing acc with
  | nil => rfl
  | cons d ds ih => simp [cumsumFrom, ih]

lemma cumsum_length (l : List ℚ) : (cumsum l).length = l.length :=
  cumsumFrom_length 0 l

lemma deltaRates_length (vs ds : List ℚ) (h : ds.length = vs.length) :
    (deltaRates vs ds).length = vs.length - 1 := by
  induction vs generalizing ds with
  | nil => cases ds <;> simp [deltaRates]
  | cons v0 vt ih =>
    cases vt with
    | nil =>
      cases ds with
      | nil => simp [deltaRates]
      | cons d0 dt => cases dt <;> simp [deltaRates]
    | cons v1 vs =>
      cases ds with
      | nil => simp at h
      | cons d0 dt =>
        cases dt with
        | nil => simp at h
        | cons d1 ds =>
          have h2 : (d1 :: ds).length = (v1 :: vs).length := by
            simpa using h
          simp [deltaRates, ih (d1 :: ds) h2]

lemma calcRatesList_length (vs ds : List ℚ) (h : ds.length = vs.length) :
    (calcRatesList vs ds).length = vs.length := by
  unfold calcRatesList
  split
  · have := deltaRates_length vs ds h
    simp [this]
    omega
  · have hv : vs.length = 0 := by omega
    have := deltaRates_length vs ds h
    omega

lemma deltaRates_getD (vs ds : List ℚ) (i : ℕ)
    (hv : i + 1 < vs.length) (hd : i + 1 < ds.length) :
    (deltaRates vs ds).getD i 0 =
      rateStep (vs.getD i 0) (vs.getD (i + 1) 0) (ds.getD (i + 1) 0) := by
  induction vs generalizing ds i with
  | nil => simp at hv
  | cons v0 vt ih =>
    cases vt with
    | nil => simp at hv
    | cons v1 vs =>
      cases ds with
      | nil => simp at hd
      | cons d0 dt =>
        cases dt with
        | nil => simp at hd
        | cons d1 ds =>
          cases i with
          | zero => simp [deltaRates]
          | succ j =>
            have hv2 : j + 1 < (v1 :: vs).length := by simpa using hv
            have hd2 : j + 1 < (d1 :: ds).length := by simpa using hd
            simpa [deltaRates] using ih (d1 :: ds) j hv2 hd2

lemma rateStep_nonneg (prev v d : ℚ) : 0 ≤ rateStep prev v d := by
  unfold rateStep
  split
  · exact le_max_left 0 _
  · exact le_refl 0

lemma deltaRates_nonneg (vs ds : List ℚ) : ∀ r ∈ deltaRates vs ds, 0 ≤ r := by
  induction vs generalizing ds with
  | nil => cases ds <;> simp [deltaRates]
  | cons v0 vt ih =>
    cases vt with
    | nil =>
      cases ds with
      | nil => simp [deltaRates]
      | cons d0 dt => cases dt <;> simp [deltaRates]
    | cons v1 vs =>
      cases ds with
      | nil => simp [deltaRates]
      | cons d0 dt =>
        cases dt with
        | nil => simp [deltaRates]
        | cons d1 ds =>
          intro r hr
          rcases List.mem_cons.mp hr with h | h
          · exact h ▸ rateStep_nonneg v0 v1 d1
          · exact ih (d1 :: ds) r h

/-! ## Claim theorems -/

/-- C1: for every episode-record sequence and metric column, the rate series
built by `calculate_rates` has one entry per episode; for index `i > 0` the
entry is `max(0, (value[i] - value[i-1]) / (duration[i] / 60))` when
`duration[i] / 60 > 0` and `0` otherwise; for index `0` it is
`value[0] / (duration[0] / 60)` when `duration[0] > 0` and `0` otherwise; a
zero divisor always yields rate `0`, never an error or a special value. -/
theorem calculate_rates_pointwise (vs ds : List ℚ) (hlen : ds.length = vs.length) :
    (calcRatesList vs ds).length = vs.length
    ∧ (0 < vs.length →
        (calcRatesList vs ds).getD 0 0 =
          if 0 < ds.getD 0 0 then vs.getD 0 0 / (ds.getD 0 0 / 60) else 0)
    ∧ (∀ i, i + 1 < vs.length →
        (calcRatesList vs ds).getD (i + 1) 0 =
          if 0 < ds.getD (i + 1) 0 / 60
          then max 0 ((vs.getD (i + 1) 0 - vs.getD i 0) / (ds.getD (i + 1) 0 / 60))
          else 0)
    ∧ (∀ i, i < vs.length → ds.getD i 0 = 0 →
        (calcRatesList vs ds).getD i 0 = 0) := by
  have hfst : 0 < vs.length →
      (calcRatesList vs ds).getD 0 0 =
        if 0 < ds.getD 0 0 then vs.getD 0 0 / (ds.getD 0 0 / 60) else 0 := by
    intro hpos
    cases vs with
    | nil => simp at hpos
    | cons v0 vt =>
      cases ds with
      | nil => simp at hlen
      | cons d0 dt => simp [calcRatesList, firstRate]
  have hsucc : ∀ i, i + 1 < vs.length →
      (calcRatesList vs ds).getD (i + 1) 0 =
        if 0 < ds.getD (i + 1) 0 / 60
        then max 0 ((vs.getD (i + 1) 0 - vs.getD i 0) / (ds.getD (i + 1) 0 / 60))
        else 0 := by
    intro i hi
    have hpos : 0 < vs.length := by omega
    have hd : i + 1 < ds.length := by omega
    have hcons : calcRatesList vs ds = firstRate vs ds :: deltaRates vs ds := by
      unfold calcRatesList
      rw [if_pos hpos]
    rw [hcons, List.getD_cons_succ, deltaRates_getD vs ds i hi hd, rateStep]
  refine ⟨calcRatesList_length vs ds hlen, hfst, hsucc, ?_⟩
  intro i hi hzero
  cases i with
  | zero =>
    rw [hfst (by omega), hzero]
    norm_num
  | succ j =>
    rw [hsucc j hi, hzero]
    norm_num

/-- Witness for C1 at the two-episode input `values = [10, 25]`,
`durations = [30, 30]`. -/
theorem calculate_rates_pointwise_witness :
    ([30, 30] : List ℚ).length = ([10, 25] : List ℚ).length
    ∧ (calcRatesList [10, 25] [30, 30]).getD 1 0 =
        (if 0 < ([30, 30] : List ℚ).getD 1 0 / 60
         then max 0 ((([10, 25] : List ℚ).getD 1 0 - ([10, 25] : List ℚ).getD 0 0)
            / (([30, 30] : List ℚ).getD 1 0 / 60))
         else 0) :=
  ⟨rfl, (calculate_rates_pointwise [10, 25] [30, 30] rfl).2.2.1 0 (by norm_num)⟩

/-- C2 counterexample: a sequence whose first episode has a negative metric
value produces a negative entry in the rate series, because the index-0 seed
rate of `calculate_rates` is not clamped with `max(0, ...)`: for
`values = [-10]`, `durations = [30]` the series is `[-20]`. -/
theorem seed_rate_negative_cex :
    calcRatesList [-10] [30] = [-20] ∧ ¬ (0 : ℚ) ≤ -20 := by
  constructor
  · norm_num [calcRatesList, firstRate, deltaRates, rateStep]
  · norm_num

/-- C2 amended: every rate-series entry at index `i > 0` is non-negative, and
when the first episode's metric value is non-negative every entry of the
series (the index-0 seed included) is non-negative; the invariant fails only
for a negative first value, which the unclamped seed rate propagates. -/
theorem rates_nonneg_of_first_nonneg (vs ds : List ℚ) (h : 0 ≤ vs.getD 0 0) :
    (∀ r ∈ deltaRates vs ds, 0 ≤ r) ∧ (∀ r ∈ calcRatesList vs ds, 0 ≤ r) := by
  refine ⟨deltaRates_nonneg vs ds, ?_⟩
  intro r hr
  unfold calcRatesList at hr
  split at hr
  · rcases List.mem_cons.mp hr with h1 | h1
    · subst h1
      cases vs with
      | nil => simp [firstRate]
      | cons v0 vt =>
        cases ds with
        | nil => simp [firstRate]
        | cons d0 dt =>
          simp only [firstRate]
          split
          · rename_i hd
            have hv0 : (0 : ℚ) ≤ v0 := by simpa using h
            have hd60 : (0 : ℚ) ≤ d0 / 60 := by positivity
            exact div_nonneg hv0 hd60
          · exact le_refl 0
    · exact deltaRates_nonneg vs ds r h1
  · exact deltaRates_nonneg vs ds r hr

/-- Witness for C2's amended statement at `values = [10, 25]`,
`durations = [30, 30]`. -/
theorem rates_nonneg_witness :
    (0 : ℚ) ≤ ([10, 25] : List ℚ).getD 0 0
    ∧ ((∀ r ∈ deltaRates [10, 25] [30, 30], 0 ≤ r)
       ∧ (∀ r ∈ calcRatesList [10, 25] [30, 30], 0 ≤ r)) :=
  ⟨by norm_num, rates_nonneg_of_first_nonneg [10, 25] [30, 30] (by norm_num)⟩

/-- C3: at the failing input (metric `TotalVehicles`, ML mean `20`, static
mean `10`) `statistical_comparison` computes `((10 - 20) / 10) * 100 = -100`
with its direction-independent formula and therefore prints "(Static
better)", while the direction-dependent formula of the specification gives
`+100` and `generate_performance_report` in the same file classifies the ML
agent as better; `generate_time_based_summary`'s throughput cell also uses
the higher-is-better formula, giving `+100`. -/
theorem stats_improvement_direction_bug :
    statsImprovementCell 20 10 = PercentCell.value (-100)
    ∧ spec_directional_improvement Metric.TotalVehicles 20 10 = 100
    ∧ reportBetterIsML Metric.TotalVehicles 20 10 = true
    ∧ throughputEntry 20 10 = PercentCell.value 100 := by
  refine ⟨?_, ?_, ?_, ?_⟩ <;>
    norm_num [statsImprovementCell, spec_directional_improvement,
      higher_is_better, reportBetterIsML, throughputEntry]

/-- C4 counterexample: with baseline mean `0`, the improvement of
`statistical_comparison` (analyze_stats.py line 194) and of
`analyze_comparison_results` (Compare_results.py line 141) is an unguarded
division producing a special float value (`inf`/`nan`), not the distinct
"not computable" marker the claim requires. -/
theorem stats_zero_baseline_special_cex :
    statsImprovementCell 5 0 = PercentCell.special
    ∧ compareResultsImprovementCell 5 0 = PercentCell.special
    ∧ PercentCell.special ≠ PercentCell.placeholder := by
  refine ⟨?_, ?_, ?_⟩ <;>
    simp [statsImprovementCell, compareResultsImprovementCell]

/-- C4 amended: only `generate_time_based_summary` guards the zero baseline
mean, leaving the `"-"` placeholder in all three improvement cells; the
improvement percentages of `statistical_comparison` and
`analyze_comparison_results` divide by the baseline mean unguarded, so a zero
baseline yields a special float value there. -/
theorem zero_baseline_markers (ml : ℚ) :
    throughputEntry ml 0 = PercentCell.placeholder
    ∧ queueEntry ml 0 = PercentCell.placeholder
    ∧ fuelEntry ml 0 = PercentCell.placeholder
    ∧ statsImprovementCell ml 0 = PercentCell.special
    ∧ compareResultsImprovementCell ml 0 = PercentCell.special := by
  refine ⟨?_, ?_, ?_, ?_, ?_⟩ <;>
    simp [throughputEntry, queueEntry, fuelEntry, statsImprovementCell,
      compareResultsImprovementCell]

/-- C5 counterexample: for a one-element series, pandas' sample standard
deviation (default `ddof=1`) is NaN (modelled `none`), not the `0` the claim
requires. -/
theorem std_single_element_cex :
    pandasSampleVar [5] = none ∧ (none : Option ℚ) ≠ some 0 := by
  constructor
  · norm_num [pandasSampleVar]
  · simp

/-- C5 amended: the standard deviation reported by `statistical_comparison`
uses the sample `(n-1)` convention — e.g. the squared deviation sum of a
two-element series is divided by `1`, giving variance `(a - b)^2 / 2` — but
for a series with `n ≤ 1` remaining values it is NaN (undefined), not `0`. -/
theorem sample_std_convention :
    (∀ a b : ℚ, pandasSampleVar [a, b] = some ((a - b) ^ 2 / 2))
    ∧ (∀ l : List ℚ, l.length ≤ 1 → pandasSampleVar l = none) := by
  constructor
  · intro a b
    norm_num [pandasSampleVar]
    ring
  · intro l hl
    simp [pandasSampleVar, hl]

/-- Witness for C5's amended statement: the two-element series `[1, 3]` gets
sample variance `2` (population convention would give `1`), and the
one-element series `[5]` gets NaN. -/
theorem sample_std_convention_witness :
    pandasSampleVar [1, 3] = some 2
    ∧ ([5] : List ℚ).length ≤ 1
    ∧ pandasSampleVar [5] = none :=
  ⟨by rw [sample_std_convention.1 1 3]; norm_num,
   by norm_num,
   sample_std_convention.2 [5] (by norm_num)⟩

/-- C7 counterexample: on an empty episode-record sequence (zero rows, all
metric columns present), `calculate_rates` raises
`ValueError: array of sample points is empty` from `np.interp` rather than
returning an empty rate series. -/
theorem empty_input_error_cex :
    calculate_rates ⟨[], some [], some [], some []⟩ [] =
      .error "array of sample points is empty" := by
  norm_num [calculate_rates, columnRates, cumsum, cumsumFrom, bind, Except.bind]

/-- C7 amended: for an empty episode-record sequence the cumulative time axis
is empty as the claim states, but the pipeline does raise: for every time
grid and any present metric columns, `calculate_rates` propagates the
`np.interp` error on an empty sample-point array instead of returning an
empty rate series, so downstream statistics are never reached. -/
theorem empty_input_behavior (va vb vc tp : List ℚ) :
    cumsum ([] : List ℚ) = []
    ∧ calculate_rates ⟨[], some va, some vb, some vc⟩ tp =
        .error "array of sample points is empty" := by
  constructor
  · rfl
  · norm_num [calculate_rates, columnRates, cumsum, cumsumFrom, bind, Except.bind]

/-- C9 counterexample: with means `20` and `10`, the higher-is-better
improvement formula gives `improvement(A vs B) = 100` but
`-improvement(B vs A) = 50`, so the claimed antisymmetry under swapping
treatment and baseline fails. -/
theorem hib_swap_cex :
    hib_improvement 20 10 = 100
    ∧ hib_improvement 10 20 = -50
    ∧ hib_improvement 20 10 ≠ -hib_improvement 10 20 := by
  refine ⟨?_, ?_, ?_⟩ <;> norm_num [hib_improvement]

/-- C9 amended: for positive means the higher-is-better improvement only
flips its sign under swapping the roles — `improvement(A vs B) > 0` exactly
when `improvement(B vs A) < 0` and the two vanish together — while the exact
identity `improvement(A vs B) = -improvement(B vs A)` holds precisely when
the two means are equal, because the swap also changes the denominator. -/
theorem hib_sign_antisymmetry (a b : ℚ) (ha : 0 < a) (hb : 0 < b) :
    (0 < hib_improvement a b ↔ hib_improvement b a < 0)
    ∧ (hib_improvement a b = 0 ↔ hib_improvement b a = 0)
    ∧ (hib_improvement a b = -hib_improvement b a ↔ a = b) := by
  unfold hib_improvement
  refine ⟨?_, ?_, ?_, ?_⟩
  · rw [div_mul_eq_mul_div, div_mul_eq_mul_div, lt_div_iff₀ hb, div_lt_iff₀ ha]
    constructor <;> intro h <;> linarith
  · rw [div_mul_eq_mul_div, div_mul_eq_mul_div, div_eq_iff hb.ne',
      div_eq_iff ha.ne']
    constructor <;> intro h <;> linarith
  · intro h
    have hsq : (a - b) ^ 2 * 100 = 0 := by
      field_simp at h
      nlinarith [h]
    have hz : (a - b) ^ 2 = 0 := by linarith
    have : a - b = 0 := by
      exact pow_eq_zero_iff (two_ne_zero) |>.mp hz
    linarith
  · intro h
    subst h
    ring

/-- Witness for C9's amended statement at means `20` and `10`. -/
theorem hib_sign_antisymmetry_witness :
    (0 : ℚ) < 20 ∧ (0 : ℚ) < 10
    ∧ ((0 < hib_improvement 20 10 ↔ hib_improvement 10 20 < 0)
       ∧ (hib_improvement 20 10 = 0 ↔ hib_improvement 10 20 = 0)
       ∧ (hib_improvement 20 10 = -hib_improvement 10 20 ↔ (20 : ℚ) = 10)) :=
  ⟨by norm_num, by norm_num,
   hib_sign_antisymmetry 20 10 (by norm_num) (by norm_num)⟩

/-- C10: in `generate_time_based_summary` every improvement cell is guarded
by a `> 0` test on the baseline (static) mean rate, so for every baseline
mean that is zero or negative all three improvement cells are left at the
`"-"` placeholder marker. -/
theorem improvement_guard_positive_baseline (ml s : ℚ) (h : s ≤ 0) :
    throughputEntry ml s = PercentCell.placeholder
    ∧ queueEntry ml s = PercentCell.placeholder
    ∧ fuelEntry ml s = PercentCell.placeholder := by
  have hn : ¬ 0 < s := not_lt.mpr h
  refine ⟨?_, ?_, ?_⟩ <;>
    simp [throughputEntry, queueEntry, fuelEntry, hn]

/-- Witness for C10 at a negative and at a zero baseline mean. -/
theorem improvement_guard_witness :
    ((-3 : ℚ) ≤ 0 ∧ throughputEntry 5 (-3) = PercentCell.placeholder)
    ∧ ((0 : ℚ) ≤ 0 ∧ queueEntry 5 0 = PercentCell.placeholder) :=
  ⟨⟨by norm_num, (improvement_guard_positive_baseline 5 (-3) (by norm_num)).1⟩,
   ⟨le_refl 0, (improvement_guard_positive_baseline 5 0 (le_refl 0)).2.1⟩⟩

lemma cumsum_ne_nil (l : List ℚ) (h : l ≠ []) : cumsum l ≠ [] := by
  intro hc
  apply h
  have := cumsum_length l
  rw [hc] at this
  exact List.length_eq_zero.mp this.symm

lemma columnRates_ok (glt : List ℚ) (col : Option (List ℚ)) (tp : List ℚ)
    (h : glt ≠ []) : ∃ o, columnRates glt col tp = Except.ok o := by
  cases col with
  | none => exact ⟨none, rfl⟩
  | some vs =>
    refine ⟨some (tp.map (fun t => npInterp t ((cumsum glt).zip (calcRatesList vs glt)))), ?_⟩
    simp [columnRates, cumsum_ne_nil glt h]

/-- C6 counterexample: for a one-episode run whose `FuelConsumed` column is
absent, `calculate_rates` succeeds with no failure of any kind and simply
omits the fuel rate series; the summary then averages the substituted
default series `[0]`, reporting a silent zero; and in `Compare_results.py`
the same absence raises a `KeyError` that aborts the entire analysis, so no
other metric produces a comparison result either. -/
theorem missing_fuel_silent_cex :
    calculate_rates ⟨[30], some [10], some [5], none⟩ [0] =
      .ok ⟨some [20], some [10], none⟩
    ∧ summaryRateMean none = some 0
    ∧ analyze_comparison_results ⟨[30], some [10], some [5], none⟩
        ⟨[30], some [10], some [5], some [2]⟩ =
        .error "episode_results.csv missing FuelConsumed column" := by
  refine ⟨?_, ?_, ?_⟩
  · norm_num [calculate_rates, columnRates, cumsum, cumsumFrom, bind, Except.bind,
      pure, Except.pure, calcRatesList, firstRate, deltaRates, rateStep, npInterp]
  · norm_num [summaryRateMean, npMean]
  · norm_num [analyze_comparison_results, throw, throwThe, MonadExceptOf.throw]

/-- C6 amended: a metric column absent from the records is not propagated as
a named failure by the time-based pipeline: `calculate_rates` succeeds,
silently omits that metric's series, and the summary substitutes the default
zero series `[0]` whose mean is `0`; only `Compare_results.py` checks for a
missing `FuelConsumed`, and its `KeyError` aborts the whole analysis rather
than only that metric's. -/
theorem missing_fuel_behavior (df st : EpisodeDF) (tp : List ℚ)
    (hne : df.greenLightTime ≠ []) (hfuel : df.fuelConsumed = none) :
    (∃ d : RatesDict, calculate_rates df tp = Except.ok d
      ∧ d.fuelConsumedRate = none
      ∧ summaryRateMean d.fuelConsumedRate = some 0)
    ∧ analyze_comparison_results df st =
        Except.error "episode_results.csv missing FuelConsumed column" := by
  constructor
  · obtain ⟨o1, h1⟩ := columnRates_ok df.greenLightTime df.totalVehicles tp hne
    obtain ⟨o2, h2⟩ := columnRates_ok df.greenLightTime df.vehiclesWaiting tp hne
    have h3 : columnRates df.greenLightTime df.fuelConsumed tp = Except.ok none := by
      rw [hfuel]
      rfl
    refine ⟨⟨o1, o2, none⟩, ?_, rfl, ?_⟩
    · simp [calculate_rates, h1, h2, h3, bind, Except.bind, pure, Except.pure]
    · norm_num [summaryRateMean, npMean]
  · simp [analyze_comparison_results, hfuel, throw, throwThe, MonadExceptOf.throw]

/-- Witness for C6's amended statement at a one-episode run missing only
`FuelConsumed`. -/
theorem missing_fuel_behavior_witness :
    ((⟨[30], some [10], some [5], none⟩ : EpisodeDF).greenLightTime ≠ []
      ∧ (⟨[30], some [10], some [5], none⟩ : EpisodeDF).fuelConsumed = none)
    ∧ ((∃ d : RatesDict,
          calculate_rates ⟨[30], some [10], some [5], none⟩ [0] = Except.ok d
          ∧ d.fuelConsumedRate = none
          ∧ summaryRateMean d.fuelConsumedRate = some 0)
       ∧ analyze_comparison_results ⟨[30], some [10], some [5], none⟩
           ⟨[30], some [10], some [5], some [2]⟩ =
           Except.error "episode_results.csv missing FuelConsumed column") :=
  ⟨⟨by simp, rfl⟩,
   missing_fuel_behavior ⟨[30], some [10], some [5], none⟩
     ⟨[30], some [10], some [5], some [2]⟩ [0] (by simp) rfl⟩

lemma cumsumFrom_chain (acc : ℚ) (l : List ℚ) (hpos : ∀ d ∈ l, 0 < d) :
    List.Chain' (· < ·) (cumsumFrom acc l) := by
  induction l generalizing acc with
  | nil => simp [cumsumFrom]
  | cons d ds ih =>
    rw [cumsumFrom]
    refine List.chain'_cons'.mpr ⟨?_, ih (acc + d) (fun x hx => hpos x (List.mem_cons_of_mem d hx))⟩
    intro b hb
    cases ds with
    | nil => simp [cumsumFrom] at hb
    | cons d2 ds2 =>
      simp only [cumsumFrom, List.head?_cons, Option.mem_def, Option.some.injEq] at hb
      have hd2 : 0 < d2 := hpos d2 (by simp)
      rw [← hb]
      linarith

lemma npInterp_exact_of_pairwise :
    ∀ (knots : List (ℚ × ℚ)), knots.Pairwise (fun p q => p.1 < q.1) →
      ∀ i (h : i < knots.length),
        npInterp (knots.get ⟨i, h⟩).1 knots = (knots.get ⟨i, h⟩).2 := by
  intro knots
  induction knots with
  | nil =>
    intro _ i h
    simp at h
  | cons p t ih =>
    intro hs i h
    obtain ⟨hp, ht⟩ := List.pairwise_cons.mp hs
    cases t with
    | nil =>
      cases i with
      | zero =>
        rcases p with ⟨x0, f0⟩
        rfl
      | succ j => simp at h
    | cons q r =>
      cases i with
      | zero =>
        rcases p with ⟨x0, f0⟩
        rcases q with ⟨x1, f1⟩
        have h01 : x0 < x1 := hp (x1, f1) (by simp)
        show npInterp x0 ((x0, f0) :: (x1, f1) :: r) = f0
        simp only [npInterp]
        rw [if_neg (lt_irrefl x0), if_pos h01]
        simp
      | succ j =>
        have hj : j < (q :: r).length := by simpa using h
        simp only [List.get_cons_succ]
        have hqle : q.1 ≤ ((q :: r).get ⟨j, hj⟩).1 := by
          cases j with
          | zero => simp
          | succ k =>
            obtain ⟨hq, hr⟩ := List.pairwise_cons.mp ht
            have hk : k < r.length := by simpa using hj
            have hmem : r.get ⟨k, hk⟩ ∈ r := List.get_mem r k hk
            have := hq _ hmem
            simpa using le_of_lt this
        have hx0 : p.1 < ((q :: r).get ⟨j, hj⟩).1 :=
          lt_of_lt_of_le (hp q (by simp)) hqle
        rcases p with ⟨x0, f0⟩
        rcases q with ⟨x1, f1⟩
        show npInterp (((⟨x1, f1⟩ :: r).get ⟨j, hj⟩).1) ((x0, f0) :: (x1, f1) :: r) =
          ((⟨x1, f1⟩ :: r).get ⟨j, hj⟩).2
        simp only [npInterp]
        rw [if_neg (not_lt.mpr (le_of_lt hx0)), if_neg (not_lt.mpr hqle)]
        exact ih ht j hj

/-- C8 counterexample: when a zero duration makes two consecutive cumulative
times equal, interpolation at that duplicated time point returns the later
sample's value, so the earlier sample is not reproduced: for
`values = [10, 10, 25]`, `durations = [30, 0, 30]` the series has knots
`[(30, 20), (30, 0), (60, 30)]`, and `np.interp` at the recorded time `30`
of index 0 gives `0`, not the recorded rate `20`. -/
theorem interp_duplicate_knot_cex :
    cumsum [30, 0, 30] = [30, 30, 60]
    ∧ calcRatesList [10, 10, 25] [30, 0, 30] = [20, 0, 30]
    ∧ npInterp 30 ((cumsum [30, 0, 30]).zip (calcRatesList [10, 10, 25] [30, 0, 30])) = 0
    ∧ (0 : ℚ) ≠ 20 := by
  refine ⟨?_, ?_, ?_, by norm_num⟩ <;>
    norm_num [cumsum, cumsumFrom, calcRatesList, firstRate, deltaRates,
      rateStep, npInterp]

/-- C8 amended: when every episode duration is strictly positive (so the
cumulative time values are strictly increasing and no knot is duplicated),
evaluating `np.interp` at each of the series' own recorded cumulative-time
points reproduces the corresponding rate value exactly. -/
theorem interp_exact_at_knots (vs ds : List ℚ) (hlen : ds.length = vs.length)
    (hpos : ∀ d ∈ ds, 0 < d) (i : ℕ) (hi : i < ds.length) :
    npInterp ((cumsum ds).getD i 0) ((cumsum ds).zip (calcRatesList vs ds)) =
      (calcRatesList vs ds).getD i 0 := by
  have hxplen : (cumsum ds).length = ds.length := cumsum_length ds
  have hfplen : (calcRatesList vs ds).length = ds.length := by
    rw [calcRatesList_length vs ds hlen, ← hlen]
  have hzlen : ((cumsum ds).zip (calcRatesList vs ds)).length = ds.length := by
    simp [List.length_zip, hxplen, hfplen]
  have hiz : i < ((cumsum ds).zip (calcRatesList vs ds)).length := by omega
  have hxpp : (cumsum ds).Pairwise (· < ·) :=
    List.chain'_iff_pairwise.mp (cumsumFrom_chain 0 ds hpos)
  have hpw : ((cumsum ds).zip (calcRatesList vs ds)).Pairwise
      (fun p q => p.1 < q.1) := by
    rw [List.pairwise_iff_getElem]
    intro a b ha hb hab
    rw [List.getElem_zip, List.getElem_zip]
    exact List.pairwise_iff_getElem.mp hxpp a b (by omega) (by omega) hab
  have hmain := npInterp_exact_of_pairwise _ hpw i hiz
  simp only [List.get_eq_getElem, List.getElem_zip] at hmain
  rw [List.getD_eq_getElem _ _ (by omega : i < (cumsum ds).length),
    List.getD_eq_getElem _ _ (by omega : i < (calcRatesList vs ds).length)]
  exact hmain

/-- Witness for C8's amended statement at `values = [10, 25]`,
`durations = [30, 30]`, index 0. -/
theorem interp_exact_at_knots_witness :
    ([30, 30] : List ℚ).length = ([10, 25] : List ℚ).length
    ∧ (∀ d ∈ ([30, 30] : List ℚ), 0 < d)
    ∧ npInterp ((cumsum [30, 30]).getD 0 0)
        ((cumsum [30, 30]).zip (calcRatesList [10, 25] [30, 30])) =
      (calcRatesList [10, 25] [30, 30]).getD 0 0 :=
  ⟨rfl, by norm_num,
   interp_exact_at_knots [10, 25] [30, 30] rfl (by norm_num) 0 (by norm_num)⟩

end TrafficAnalysis
